import Mathlib

/-!
# Verification of the ng-auto-position placement engine

Shallow embedding of `NgAutoPositionElementDirective` (file
`src/unnamed/part_001`, the current build of
`ng-auto-position.directive`).  Pixel coordinates, which the browser
reports as floating-point numbers, are modelled as rationals; the
placement arithmetic uses only `+ - * min max` and comparisons, on which
rationals agree with the intended real-number semantics.

The DOM is abstracted away: `updatePosition` receives the measured
rectangles and viewport size as arguments, the resolution of the inner
scrollable element as a boolean, and returns the style writes it would
perform instead of mutating elements.
-/

namespace NgAutoPosition

/-- The `placement` input of the directive:
`'auto' | 'top' | 'bottom' | 'left' | 'right'`, default `'auto'`. -/
inductive Placement where
  | auto
  | top
  | bottom
  | left
  | right
deriving DecidableEq, Repr

/-- The resolved side of a placement (`finalPlacement` in the source):
`'top' | 'bottom' | 'left' | 'right'`. -/
inductive Side where
  | top
  | bottom
  | left
  | right
deriving DecidableEq, Repr

/-- A `DOMRect` as returned by `getBoundingClientRect()`, restricted to
the fields the directive reads. -/
structure Rect where
  top : ℚ
  left : ℚ
  right : ℚ
  bottom : ℚ
  width : ℚ
deriving DecidableEq, Repr

/-- The configuration inputs of one `updatePosition` call.
`scrollableSelector` is modelled as the truthiness of the selector
string (`null` and `""` are falsy in `if (this.scrollableSelector())`). -/
structure Config where
  placement : Placement
  offset : ℚ
  viewportPadding : ℚ
  matchWidth : Bool
  scrollableSelector : Bool
deriving DecidableEq, Repr

/-- The style writes performed on the inner scrollable element:
`inner.style.maxHeight` and `inner.style.overflowY = 'auto'`. -/
structure InnerStyle where
  maxHeight : ℚ
  overflowYAuto : Bool
deriving DecidableEq, Repr

/-- The outcome of one placement computation: the resolved side, the
final `top`/`left` written to the overlay, whether viewport clamping was
applied (the source clamps exactly when the reference is not fully out),
and the optional inner scrollable-element sizing. -/
structure PlacementResult where
  side : Side
  top : ℚ
  left : ℚ
  clamped : Bool
  inner : Option InnerStyle
deriving DecidableEq, Repr

/-- `isReferenceFullyOut` from the source:

```
return (refRect.bottom <= 0 ||   // above viewport
        refRect.top >= vh ||     // below viewport
        refRect.right <= 0 ||    // left of viewport
        refRect.left >= vw);     // right of viewport
```
-/
def isReferenceFullyOut (vw vh : ℚ) (refRect : Rect) : Bool :=
  decide (refRect.bottom ≤ 0) || decide (refRect.top ≥ vh) ||
  decide (refRect.right ≤ 0) || decide (refRect.left ≥ vw)

/-- The `openOnTop` flag after the user-preference overrides:

```
let openOnTop = overlayRect.height > spaceBelow && spaceAbove >= overlayRect.height;
if (preferredPlacement === 'top') openOnTop = true;
if (preferredPlacement === 'bottom') openOnTop = false;
```

where `spaceAbove = refRect.top` and `spaceBelow = viewportH - refRect.bottom`. -/
def resolvedOpenOnTop (cfg : Config) (vh : ℚ) (refRect : Rect) (overlayH : ℚ) : Bool :=
  let spaceAbove := refRect.top
  let spaceBelow := vh - refRect.bottom
  let autoOnTop := decide (overlayH > spaceBelow) && decide (spaceAbove ≥ overlayH)
  match cfg.placement with
  | Placement.top => true
  | Placement.bottom => false
  | _ => autoOnTop

/-- The side and the raw (pre-clamp) `top`/`left` coordinates, from the
`if (preferredPlacement === 'left' || preferredPlacement === 'right')`
branch of `updatePosition`:

```
if (preferredPlacement === 'left' || preferredPlacement === 'right') {
    finalPlacement = preferredPlacement;
    left = preferredPlacement === 'left'
        ? refRect.left - overlayRect.width - this.offset()
        : refRect.right + this.offset();
    top = refRect.top;
} else {
    finalPlacement = openOnTop ? 'top' : 'bottom';
    top = openOnTop
        ? refRect.top - overlayRect.height - this.offset()
        : refRect.bottom + this.offset();
    left = refRect.left;
}
```
Returns `(finalPlacement, top, left)`. -/
def rawPlacement (cfg : Config) (vh : ℚ) (refRect : Rect)
    (overlayH overlayW : ℚ) : Side × ℚ × ℚ :=
  let openOnTop := resolvedOpenOnTop cfg vh refRect overlayH
  match cfg.placement with
  | Placement.left =>
      (Side.left, refRect.top, refRect.left - overlayW - cfg.offset)
  | Placement.right =>
      (Side.right, refRect.top, refRect.right + cfg.offset)
  | _ =>
      (if openOnTop then Side.top else Side.bottom,
       if openOnTop then refRect.top - overlayH - cfg.offset
        else refRect.bottom + cfg.offset,
       refRect.left)

/-- The pure placement computation of `updatePosition`: side resolution,
raw coordinates, the fully-out test, viewport clamping

```
if (!fullyOut) {
    const padding = Math.max(0, this.viewportPadding());
    top = Math.min(top, viewportH - overlayRect.height - padding);
    top = Math.max(top, padding);
    left = Math.min(left, viewportW - overlayRect.width - padding);
    left = Math.max(left, padding);
}
```

and the optional inner-scroll-container sizing

```
if (this.scrollableSelector()) {
    const inner = overlay.querySelector(this.scrollableSelector());
    if (inner) {
        const padding = Math.max(0, this.viewportPadding());
        const maxSpace = finalPlacement === 'left' || finalPlacement === 'right'
            ? viewportH - padding * 2
            : openOnTop ? spaceAbove : spaceBelow;
        inner.style.maxHeight = `${Math.min(maxSpace - 10, viewportH * 0.9)}px`;
        inner.style.overflowY = 'auto';
    }
}
```

`innerFound` models `overlay.querySelector(...)` finding an element. -/
def computePlacement (cfg : Config) (vw vh : ℚ) (refRect : Rect)
    (overlayH overlayW : ℚ) (innerFound : Bool) : PlacementResult :=
  let openOnTop := resolvedOpenOnTop cfg vh refRect overlayH
  let raw := rawPlacement cfg vh refRect overlayH overlayW
  let side := raw.1
  let rawTop := raw.2.1
  let rawLeft := raw.2.2
  let fullyOut := isReferenceFullyOut vw vh refRect
  let padding := max 0 cfg.viewportPadding
  let top :=
    if fullyOut then rawTop
    else max (min rawTop (vh - overlayH - padding)) padding
  let left :=
    if fullyOut then rawLeft
    else max (min rawLeft (vw - overlayW - padding)) padding
  let inner : Option InnerStyle :=
    if cfg.scrollableSelector && innerFound then
      let maxSpace :=
        match side with
        | Side.left => vh - padding * 2
        | Side.right => vh - padding * 2
        | _ => if openOnTop then refRect.top else vh - refRect.bottom
      some ⟨min (maxSpace - 10) (vh * (9 / 10)), true⟩
    else none
  ⟨side, top, left, !fullyOut, inner⟩

/-- The `lastPlacement` field starts as `null` (source line
`lastPlacement = null;`). -/
def initialLastPlacement : Option Side := none

/-- The placement-change bookkeeping of `updatePosition`:

```
if (this.lastPlacement !== finalPlacement) {
    this.lastPlacement = finalPlacement;
    this.placementChange.emit(finalPlacement);
}
```

Returns the new `lastPlacement` and whether `placementChange` fired. -/
def emitStep (last : Option Side) (side : Side) : Option Side × Bool :=
  if last ≠ some side then (some side, true) else (last, false)

/-- All externally visible writes of one successful `updatePosition`
pass: the optional `overlay.style.width` write (`matchWidth`), the
`overlay.style.top` / `overlay.style.left` writes, the side emitted on
`placementChange` (if any), and the inner element sizing (if any). -/
structure Effects where
  widthWrite : Option ℚ
  top : ℚ
  left : ℚ
  emitted : Option Side
  inner : Option InnerStyle
deriving DecidableEq, Repr

/-- One full `updatePosition` call.  `mRef` is the result of
`getReferenceElement` (as a measured rectangle): on `none` the method
returns immediately (`if (!reference) return;`), performing no write and
leaving `lastPlacement` untouched.  Returns the new `lastPlacement`
state and the effects (`none` when the call was a no-op). -/
def updatePosition (cfg : Config) (mRef : Option Rect) (vw vh : ℚ)
    (overlayH overlayW : ℚ) (innerFound : Bool) (last : Option Side) :
    Option Side × Option Effects :=
  match mRef with
  | none => (last, none)
  | some refRect =>
      let widthWrite : Option ℚ :=
        if cfg.matchWidth then some refRect.width else none
      let res := computePlacement cfg vw vh refRect overlayH overlayW innerFound
      let step := emitStep last res.side
      (step.1,
       some ⟨widthWrite, res.top, res.left,
             if step.2 then some res.side else none, res.inner⟩)

/-- `getReferenceElement` from the source:

```
const directRef = this.referenceElement();
if (directRef) {
    return directRef instanceof ElementRef ? directRef.nativeElement : directRef;
}
const id = this.referenceElementId();
return id ? document.getElementById(id) : overlay.parentElement;
```

Elements are abstract (`α`); `getById` models `document.getElementById`
(`none` = no element with that id); `parent` models
`overlay.parentElement`.  Note that `id ? _ : _` tests JavaScript
truthiness, so the empty string behaves like `null`. -/
def getReferenceElement {α : Type} (directRef : Option α)
    (refId : Option String) (getById : String → Option α)
    (parent : Option α) : Option α :=
  match directRef with
  | some e => some e
  | none =>
      match refId with
      | some id => if id = "" then parent else getById id
      | none => parent

/-- Runs a sequence of successful recomputations (their resolved sides)
through the `lastPlacement` bookkeeping, counting `placementChange`
emissions. -/
def runSides (last : Option Side) : List Side → Option Side × Nat
  | [] => (last, 0)
  | s :: rest =>
      let step := emitStep last s
      let tail := runSides step.1 rest
      (tail.1, (if step.2 then 1 else 0) + tail.2)

/-- Modelled from the spec (the claim's own notion, for comparison with
`runSides`): the number of actual changes of the resolved side across a
sequence, relative to the previously recorded side. -/
def specCountChanges (last : Option Side) : List Side → Nat
  | [] => 0
  | s :: rest =>
      (if last = some s then 0 else 1) + specCountChanges (some s) rest

/-! ## Concrete instances used by witnesses and counterexamples -/

/-- The directive's default configuration: `placement = 'auto'`,
`offset = 5`, `viewportPadding = 4`, `matchWidth = false`, no
`scrollableSelector`. -/
def cfgAutoDefault : Config := ⟨Placement.auto, 5, 4, false, false⟩

/-- Default configuration with `placement = 'right'`. -/
def cfgRightDefault : Config := ⟨Placement.right, 5, 4, false, false⟩

/-- Default configuration with a truthy `scrollableSelector`. -/
def cfgScroll : Config := ⟨Placement.auto, 5, 4, false, true⟩

/-- An anchor fully inside a 100 by 100 viewport, 50px of space below. -/
def rectInside : Rect := ⟨10, 10, 30, 50, 20⟩

/-- An anchor near the bottom edge of a 100 by 100 viewport, still
partially visible. -/
def rectNearBottom : Rect := ⟨95, 10, 20, 98, 10⟩

/-- The spec's worked example anchor `{top:700, bottom:730, left:50,
right:150}` for a 1024 by 768 viewport. -/
def rectExample : Rect := ⟨700, 50, 150, 730, 100⟩

/-- The spec's fully-above-viewport example anchor `{top:-50,
bottom:-10, left:0, right:50}`. -/
def rectOut : Rect := ⟨-50, 0, 50, -10, 50⟩

/-! ## Helper lemmas -/

/-- Unfolding `computePlacement`: the resolved side is the raw side. -/
theorem computePlacement_side (cfg : Config) (vw vh : ℚ) (r : Rect)
    (oh ow : ℚ) (innerF : Bool) :
    (computePlacement cfg vw vh r oh ow innerF).side =
      (rawPlacement cfg vh r oh ow).1 := rfl

/-- Unfolding `computePlacement` when the reference is fully out: the
raw coordinates are returned untouched. -/
theorem computePlacement_raw_of_fullyOut (cfg : Config) (vw vh : ℚ)
    (r : Rect) (oh ow : ℚ) (innerF : Bool)
    (h : isReferenceFullyOut vw vh r = true) :
    (computePlacement cfg vw vh r oh ow innerF).top =
        (rawPlacement cfg vh r oh ow).2.1 ∧
      (computePlacement cfg vw vh r oh ow innerF).left =
        (rawPlacement cfg vh r oh ow).2.2 := by
  constructor <;> simp [computePlacement, h]

/-- Unfolding `computePlacement` when the reference is visible: both
coordinates are the two-sided clamp of the raw coordinates. -/
theorem computePlacement_clamped_of_visible (cfg : Config) (vw vh : ℚ)
    (r : Rect) (oh ow : ℚ) (innerF : Bool)
    (h : isReferenceFullyOut vw vh r = false) :
    (computePlacement cfg vw vh r oh ow innerF).top =
        max (min (rawPlacement cfg vh r oh ow).2.1
              (vh - oh - max 0 cfg.viewportPadding))
          (max 0 cfg.viewportPadding) ∧
      (computePlacement cfg vw vh r oh ow innerF).left =
        max (min (rawPlacement cfg vh r oh ow).2.2
              (vw - ow - max 0 cfg.viewportPadding))
          (max 0 cfg.viewportPadding) := by
  constructor <;> simp [computePlacement, h]

/-- Behaviour of the two-sided clamp `Math.max(Math.min(x, ub), p)`:
when `p ≤ ub` the result lies in `[p, ub]`; when the interval is empty
the lower bound `p` wins. -/
theorem clamp_mem (x ub p : ℚ) :
    (p ≤ ub → p ≤ max (min x ub) p ∧ max (min x ub) p ≤ ub) ∧
      (ub < p → max (min x ub) p = p) := by
  refine ⟨fun h => ⟨le_max_right _ _, max_le (min_le_right _ _) h⟩, fun h => ?_⟩
  exact max_eq_right (le_of_lt (lt_of_le_of_lt (min_le_right _ _) h))

/-! ## Claims -/

/-- Claim C1: for every computation with placement `'auto'`, the engine
opens on top if and only if `panelHeight > spaceBelow` and
`spaceAbove ≥ panelHeight`, where `spaceAbove = anchorRect.top` and
`spaceBelow = viewportHeight - anchorRect.bottom`; in every other case
the side resolved is bottom. -/
theorem claim1_auto_side_selection (cfg : Config) (vw vh : ℚ) (r : Rect)
    (oh ow : ℚ) (innerF : Bool) (hauto : cfg.placement = Placement.auto) :
    ((computePlacement cfg vw vh r oh ow innerF).side = Side.top ↔
        (oh > vh - r.bottom ∧ r.top ≥ oh)) ∧
      ((computePlacement cfg vw vh r oh ow innerF).side ≠ Side.top →
        (computePlacement cfg vw vh r oh ow innerF).side = Side.bottom) := by
  obtain ⟨pl, off, vp, mw, ss⟩ := cfg
  replace hauto : pl = Placement.auto := hauto
  subst hauto
  by_cases h1 : oh > vh - r.bottom <;> by_cases h2 : r.top ≥ oh <;>
    simp [computePlacement, rawPlacement, resolvedOpenOnTop, h1, h2]

/-- Witness for C1 at the spec's worked example: anchor
`{top:700, bottom:730}` in a 1024 by 768 viewport with panel height 300
opens on top. -/
theorem claim1_witness :
    (computePlacement cfgAutoDefault 1024 768 rectExample 300 200 false).side =
      Side.top :=
  (claim1_auto_side_selection cfgAutoDefault 1024 768 rectExample 300 200 false
    rfl).1.mpr (by norm_num [rectExample])

/-- Claim C2: for every computation in which the anchor is not fully out
of the viewport, the final `top` and `left` are clamped into
`[p, viewportDimension - panelDimension - p]` with
`p = max 0 viewportPadding`; both bounds are enforced, and when the
panel is larger than the viewport minus twice the padding the lower
bound wins, i.e. the coordinate equals `p`. -/
theorem claim2_visible_clamp (cfg : Config) (vw vh : ℚ) (r : Rect)
    (oh ow : ℚ) (innerF : Bool) (p : ℚ)
    (hp : p = max 0 cfg.viewportPadding)
    (hvis : isReferenceFullyOut vw vh r = false) :
    (p ≤ vh - oh - p →
        p ≤ (computePlacement cfg vw vh r oh ow innerF).top ∧
          (computePlacement cfg vw vh r oh ow innerF).top ≤ vh - oh - p) ∧
      (vh - oh - p < p → (computePlacement cfg vw vh r oh ow innerF).top = p) ∧
      (p ≤ vw - ow - p →
        p ≤ (computePlacement cfg vw vh r oh ow innerF).left ∧
          (computePlacement cfg vw vh r oh ow innerF).left ≤ vw - ow - p) ∧
      (vw - ow - p < p →
        (computePlacement cfg vw vh r oh ow innerF).left = p) := by
  obtain ⟨htop, hleft⟩ :=
    computePlacement_clamped_of_visible cfg vw vh r oh ow innerF hvis
  rw [htop, hleft, ← hp]
  exact ⟨(clamp_mem _ _ _).1, (clamp_mem _ _ _).2,
    (clamp_mem _ _ _).1, (clamp_mem _ _ _).2⟩

/-- Witness for C2: for the near-bottom anchor in a 100 by 100 viewport
with panel 50 by 30 and padding 4 the final top lies in `[4, 46]`. -/
theorem claim2_witness :
    (4:ℚ) ≤ (computePlacement cfgRightDefault 100 100 rectNearBottom
        50 30 false).top ∧
      (computePlacement cfgRightDefault 100 100 rectNearBottom
        50 30 false).top ≤ 100 - 50 - 4 :=
  (claim2_visible_clamp cfgRightDefault 100 100 rectNearBottom 50 30 false 4
    (by decide) (by decide)).1 (by norm_num)

/-- Claim C3: the anchor is classified as fully out of the viewport if
and only if it lies entirely above (`bottom ≤ 0`), entirely below
(`top ≥ vh`), entirely left of (`right ≤ 0`), or entirely right of
(`left ≥ vw`) the viewport — equivalently, iff it has no overlap with
the viewport in both axes; and whenever the anchor is fully out, no
clamping is applied: the returned `top` and `left` are exactly the raw
computed values and the result is marked `clamped = false`. -/
theorem claim3_fully_out_follow_mode (vw vh : ℚ) (r : Rect) :
    (isReferenceFullyOut vw vh r = true ↔
        (r.bottom ≤ 0 ∨ r.top ≥ vh ∨ r.right ≤ 0 ∨ r.left ≥ vw)) ∧
      (isReferenceFullyOut vw vh r = true ↔
        ¬(0 < r.bottom ∧ r.top < vh ∧ 0 < r.right ∧ r.left < vw)) ∧
      (isReferenceFullyOut vw vh r = true →
        ∀ (cfg : Config) (oh ow : ℚ) (innerF : Bool),
          (computePlacement cfg vw vh r oh ow innerF).top =
              (rawPlacement cfg vh r oh ow).2.1 ∧
            (computePlacement cfg vw vh r oh ow innerF).left =
              (rawPlacement cfg vh r oh ow).2.2 ∧
            (computePlacement cfg vw vh r oh ow innerF).clamped = false) := by
  have h0 : isReferenceFullyOut vw vh r = true ↔
      (r.bottom ≤ 0 ∨ r.top ≥ vh ∨ r.right ≤ 0 ∨ r.left ≥ vw) := by
    simp [isReferenceFullyOut, or_assoc]
  refine ⟨h0, ?_, ?_⟩
  · rw [h0]
    constructor
    · rintro (h | h | h | h) ⟨c1, c2, c3, c4⟩ <;> linarith
    · intro h
      by_contra hc
      push_neg at hc
      exact h hc
  · intro h cfg oh ow innerF
    obtain ⟨htop, hleft⟩ := computePlacement_raw_of_fullyOut cfg vw vh r oh ow
      innerF h
    refine ⟨htop, hleft, ?_⟩
    simp [computePlacement, h]

/-- Witness for C3 at the spec's follow-mode example: the anchor
`{top:-50, bottom:-10}` is fully above the viewport, so the result is
unclamped and `top` is the raw value `bottom + offset = -5`. -/
theorem claim3_witness :
    (computePlacement cfgAutoDefault 1024 768 rectOut 300 200 false).top =
        (rawPlacement cfgAutoDefault 768 rectOut 300 200).2.1 ∧
      (computePlacement cfgAutoDefault 1024 768 rectOut 300 200 false).clamped =
        false :=
  ⟨((claim3_fully_out_follow_mode 1024 768 rectOut).2.2 (by decide)
      cfgAutoDefault 300 200 false).1,
    ((claim3_fully_out_follow_mode 1024 768 rectOut).2.2 (by decide)
      cfgAutoDefault 300 200 false).2.2⟩

/-- Claim C4 counterexample: anchor `{top:10, bottom:50}` fully inside
a 100 by 100 viewport, panel height 50, default config (`auto`, offset
5, padding 4).  Space below is `50 ≥ 50`, the side is bottom, but the
final top is the clamped value `46`, not
`anchorRect.bottom + offset = 55`. -/
theorem claim4_counterexample :
    ((100:ℚ) - rectInside.bottom ≥ 50) ∧
      ((0:ℚ) ≤ rectInside.top ∧ rectInside.bottom ≤ 100 ∧
        (0:ℚ) ≤ rectInside.left ∧ rectInside.right ≤ 100) ∧
      (computePlacement cfgAutoDefault 100 100 rectInside 50 20 false).side =
        Side.bottom ∧
      (computePlacement cfgAutoDefault 100 100 rectInside 50 20 false).top ≠
        rectInside.bottom + cfgAutoDefault.offset := by
  refine ⟨by norm_num [rectInside], by norm_num [rectInside], ?_, ?_⟩ <;>
    norm_num [computePlacement, rawPlacement, resolvedOpenOnTop,
      isReferenceFullyOut, cfgAutoDefault, rectInside, min_def, max_def]

/-- Claim C4 (amended): for every auto-placement computation whose
space below (`vh - anchorRect.bottom`) is at least the panel height,
the resolved side is bottom — unconditionally.  The final returned top
is the raw value `anchorRect.bottom + offset` when the anchor is fully
out of the viewport, and otherwise the Step-6 clamped value
`max (min (anchorRect.bottom + offset) (vh - panelHeight - p)) p` with
`p = max 0 viewportPadding`; in particular the final top equals
`anchorRect.bottom + offset` whenever that value lies inside the clamp
interval `[p, vh - panelHeight - p]`, whether or not the anchor is
fully out. -/
theorem claim4_amended_bottom_side (cfg : Config) (vw vh : ℚ) (r : Rect)
    (oh ow : ℚ) (innerF : Bool) (hauto : cfg.placement = Placement.auto)
    (p : ℚ) (hp : p = max 0 cfg.viewportPadding)
    (hbelow : vh - r.bottom ≥ oh) :
    (computePlacement cfg vw vh r oh ow innerF).side = Side.bottom ∧
      (isReferenceFullyOut vw vh r = true →
        (computePlacement cfg vw vh r oh ow innerF).top =
          r.bottom + cfg.offset) ∧
      (isReferenceFullyOut vw vh r = false →
        (computePlacement cfg vw vh r oh ow innerF).top =
          max (min (r.bottom + cfg.offset) (vh - oh - p)) p) ∧
      (p ≤ r.bottom + cfg.offset → r.bottom + cfg.offset ≤ vh - oh - p →
        (computePlacement cfg vw vh r oh ow innerF).top =
          r.bottom + cfg.offset) := by
  have hot : resolvedOpenOnTop cfg vh r oh = false := by
    obtain ⟨pl, off, vp, mw, ss⟩ := cfg
    replace hauto : pl = Placement.auto := hauto
    subst hauto
    simp only [resolvedOpenOnTop, Bool.and_eq_false_iff]
    left
    simpa using not_lt.mpr hbelow
  have hraw : rawPlacement cfg vh r oh ow =
      (Side.bottom, r.bottom + cfg.offset, r.left) := by
    obtain ⟨pl, off, vp, mw, ss⟩ := cfg
    replace hauto : pl = Placement.auto := hauto
    subst hauto
    simp [rawPlacement, hot]
  have htrue : isReferenceFullyOut vw vh r = true →
      (computePlacement cfg vw vh r oh ow innerF).top =
        r.bottom + cfg.offset := fun hout => by
    rw [(computePlacement_raw_of_fullyOut cfg vw vh r oh ow innerF hout).1,
      hraw]
  have hfalse : isReferenceFullyOut vw vh r = false →
      (computePlacement cfg vw vh r oh ow innerF).top =
        max (min (r.bottom + cfg.offset) (vh - oh - p)) p := fun hvis => by
    rw [(computePlacement_clamped_of_visible cfg vw vh r oh ow innerF
      hvis).1, hraw, ← hp]
  refine ⟨by rw [computePlacement_side, hraw], htrue, hfalse, ?_⟩
  intro hlo hhi
  cases hout : isReferenceFullyOut vw vh r with
  | true => exact htrue hout
  | false =>
      rw [hfalse hout, min_eq_left hhi]
      exact max_eq_left hlo

/-- Witness for the amended C4: anchor `{top:10, bottom:50}` in a 100
by 100 viewport with panel height 30 has `spaceBelow = 50 ≥ 30` and
`bottom + offset = 55 ∈ [4, 66]`, so the side is bottom and the final
top is 55. -/
theorem claim4_witness :
    (computePlacement cfgAutoDefault 100 100 rectInside 30 20 false).side =
        Side.bottom ∧
      (computePlacement cfgAutoDefault 100 100 rectInside 30 20 false).top =
        rectInside.bottom + cfgAutoDefault.offset := by
  have h := claim4_amended_bottom_side cfgAutoDefault 100 100 rectInside 30 20
    false rfl 4 (by decide) (by norm_num [rectInside])
  exact ⟨h.1, h.2.2.2 (by norm_num [rectInside, cfgAutoDefault])
    (by norm_num [rectInside, cfgAutoDefault])⟩

/-- Claim C5 counterexample: placement forced to `'right'`, anchor
`{top:95, bottom:98, left:10, right:20}` partially visible in a 100 by
100 viewport, panel 50 by 30, default offset 5 and padding 4.  The
resolved side is right, but the final returned top is the clamped value
`46`, not `anchorRect.top = 95`: the claim's equation for the final top
fails because Step 6 clamps horizontal placements too. -/
theorem claim5_counterexample :
    (computePlacement cfgRightDefault 100 100 rectNearBottom 50 30
        false).side = Side.right ∧
      (computePlacement cfgRightDefault 100 100 rectNearBottom 50 30
          false).left = rectNearBottom.right + cfgRightDefault.offset ∧
      (computePlacement cfgRightDefault 100 100 rectNearBottom 50 30
          false).top ≠ rectNearBottom.top := by
  refine ⟨?_, ?_, ?_⟩ <;>
    norm_num [computePlacement, rawPlacement, resolvedOpenOnTop,
      isReferenceFullyOut, cfgRightDefault, rectNearBottom, min_def, max_def]

/-- Claim C5 (amended): for every computation with placement forced to
`'left'` or `'right'`, the resolved side equals the forced value and
the raw coordinates are `left = anchorRect.left - panelWidth - offset`
(for `'left'`) or `anchorRect.right + offset` (for `'right'`) with
`top = anchorRect.top`; these raw values are returned as-is when the
anchor is fully out of the viewport, and otherwise are clamped into the
viewport exactly like vertical placements (so the final top can differ
from `anchorRect.top`).  A `'left'` or `'right'` side is never produced
when placement is `'auto'`, `'top'`, or `'bottom'`. -/
theorem claim5_amended_horizontal (cfg : Config) (vw vh : ℚ) (r : Rect)
    (oh ow : ℚ) (innerF : Bool) (p : ℚ)
    (hp : p = max 0 cfg.viewportPadding)
    (hhoriz : cfg.placement = Placement.left ∨
      cfg.placement = Placement.right) :
    ((computePlacement cfg vw vh r oh ow innerF).side =
        if cfg.placement = Placement.left then Side.left else Side.right) ∧
      (rawPlacement cfg vh r oh ow).2.1 = r.top ∧
      ((rawPlacement cfg vh r oh ow).2.2 =
        if cfg.placement = Placement.left then r.left - ow - cfg.offset
        else r.right + cfg.offset) ∧
      (isReferenceFullyOut vw vh r = true →
        (computePlacement cfg vw vh r oh ow innerF).top = r.top ∧
          (computePlacement cfg vw vh r oh ow innerF).left =
            (rawPlacement cfg vh r oh ow).2.2) ∧
      (isReferenceFullyOut vw vh r = false →
        (computePlacement cfg vw vh r oh ow innerF).top =
            max (min r.top (vh - oh - p)) p ∧
          (computePlacement cfg vw vh r oh ow innerF).left =
            max (min (rawPlacement cfg vh r oh ow).2.2 (vw - ow - p)) p) ∧
      (∀ (cfg2 : Config) (vw2 vh2 : ℚ) (r2 : Rect) (oh2 ow2 : ℚ)
          (i2 : Bool),
        ((computePlacement cfg2 vw2 vh2 r2 oh2 ow2 i2).side = Side.left ∨
          (computePlacement cfg2 vw2 vh2 r2 oh2 ow2 i2).side = Side.right) →
        (cfg2.placement = Placement.left ∨
          cfg2.placement = Placement.right)) := by
  have hraw : rawPlacement cfg vh r oh ow =
      ((if cfg.placement = Placement.left then Side.left else Side.right),
        r.top,
        (if cfg.placement = Placement.left then r.left - ow - cfg.offset
          else r.right + cfg.offset)) := by
    obtain ⟨pl, off, vp, mw, ss⟩ := cfg
    rcases hhoriz with h | h <;>
      (replace h : pl = _ := h; subst h; simp [rawPlacement])
  refine ⟨by rw [computePlacement_side, hraw], by rw [hraw],
    by rw [hraw], ?_, ?_, ?_⟩
  · intro hout
    obtain ⟨htop, hleft⟩ :=
      computePlacement_raw_of_fullyOut cfg vw vh r oh ow innerF hout
    exact ⟨by rw [htop, hraw], hleft⟩
  · intro hvis
    obtain ⟨htop, hleft⟩ :=
      computePlacement_clamped_of_visible cfg vw vh r oh ow innerF hvis
    rw [htop, hleft, ← hp]
    constructor
    · rw [hraw]
    · rfl
  · intro cfg2 vw2 vh2 r2 oh2 ow2 i2 hside
    obtain ⟨pl2, off2, vp2, mw2, ss2⟩ := cfg2
    rw [computePlacement_side] at hside
    cases pl2
    case left => exact Or.inl rfl
    case right => exact Or.inr rfl
    all_goals
      exfalso
      rcases hside with h | h <;>
        (simp only [rawPlacement] at h; split at h <;> simp_all)

/-- Witness for the amended C5: placement `'right'` on the near-bottom
anchor resolves side right with raw left `25`; after clamping the final
top is `46`. -/
theorem claim5_witness :
    (computePlacement cfgRightDefault 100 100 rectNearBottom 50 30
        false).side = Side.right ∧
      (computePlacement cfgRightDefault 100 100 rectNearBottom 50 30
        false).top = max (min rectNearBottom.top ((100:ℚ) - 50 - 4)) 4 := by
  have h := claim5_amended_horizontal cfgRightDefault 100 100 rectNearBottom
    50 30 false 4 (by decide) (Or.inr rfl)
  refine ⟨?_, (h.2.2.2.2.1 (by decide)).1⟩
  have hs := h.1
  simpa [cfgRightDefault] using hs

/-- Claim C6: across any sequence of successful recomputations, the
placement-changed event is emitted exactly once per actual change of
the resolved side relative to the stored `lastPlacement`, and never on
a recomputation whose resolved side equals the side of the previous
successful computation. -/
theorem claim6_emit_once_per_change (last : Option Side)
    (sides : List Side) :
    (runSides last sides).2 = specCountChanges last sides ∧
      (∀ s : Side, (emitStep last s).2 = true ↔ last ≠ some s) := by
  constructor
  · induction sides generalizing last with
    | nil => rfl
    | cons s rest ih =>
        have hfst : (emitStep last s).1 = some s := by
          by_cases h : last = some s <;> simp [emitStep, h]
        have hcnt : (if (emitStep last s).2 then 1 else 0) =
            (if last = some s then 0 else 1) := by
          by_cases h : last = some s <;> simp [emitStep, h]
        simp only [runSides, specCountChanges, hfst, hcnt, ih]
  · intro s
    by_cases h : last = some s <;> simp [emitStep, h]

/-- Witness for C6: the sequence bottom, top, top from the initial null
state emits twice — once for the initial bottom, once for the flip to
top, and not for the repeated top. -/
theorem claim6_witness :
    (runSides initialLastPlacement
        [Side.bottom, Side.top, Side.top]).2 =
      specCountChanges initialLastPlacement
        [Side.bottom, Side.top, Side.top] :=
  (claim6_emit_once_per_change initialLastPlacement
    [Side.bottom, Side.top, Side.top]).1

/-- Unfolding the inner-scroll-container sizing of `computePlacement`
when the selector is truthy and the element is found. -/
theorem computePlacement_inner (cfg : Config) (vw vh : ℚ) (r : Rect)
    (oh ow : ℚ) (hsel : cfg.scrollableSelector = true) :
    (computePlacement cfg vw vh r oh ow true).inner =
      some ⟨min ((match (rawPlacement cfg vh r oh ow).1 with
          | Side.left => vh - (max 0 cfg.viewportPadding) * 2
          | Side.right => vh - (max 0 cfg.viewportPadding) * 2
          | _ => if resolvedOpenOnTop cfg vh r oh then r.top
                  else vh - r.bottom) - 10)
        (vh * (9 / 10)), true⟩ := by
  simp [computePlacement, hsel]

/-- A resolved side of top can only come from the vertical branch with
`openOnTop = true`. -/
theorem rawPlacement_top_openOnTop (cfg : Config) (vh : ℚ) (r : Rect)
    (oh ow : ℚ) (h : (rawPlacement cfg vh r oh ow).1 = Side.top) :
    resolvedOpenOnTop cfg vh r oh = true := by
  obtain ⟨pl, off, vp, mw, ss⟩ := cfg
  cases pl <;> simp only [rawPlacement] at h <;>
    first
      | (split at h <;> simp_all)
      | simp_all

/-- A resolved side of bottom can only come from the vertical branch
with `openOnTop = false`. -/
theorem rawPlacement_bottom_openOnTop (cfg : Config) (vh : ℚ) (r : Rect)
    (oh ow : ℚ) (h : (rawPlacement cfg vh r oh ow).1 = Side.bottom) :
    resolvedOpenOnTop cfg vh r oh = false := by
  obtain ⟨pl, off, vp, mw, ss⟩ := cfg
  cases pl <;> simp only [rawPlacement] at h <;>
    first
      | (split at h <;> simp_all)
      | simp_all

/-- Claim C7: for every computation in which `scrollableSelector`
resolves to an element inside the panel, that element's maximum height
is set to `min (maxSpace - 10) (viewportHeight * 0.9)` and it is marked
vertically scrollable, where `maxSpace` is the chosen side's space
(`spaceAbove = anchorRect.top` when the side is top,
`spaceBelow = viewportHeight - anchorRect.bottom` when bottom) for
vertical placement, and `viewportHeight - 2 * p` with
`p = max 0 viewportPadding` for left/right placement. -/
theorem claim7_scrollable_inner_sizing (cfg : Config) (vw vh : ℚ)
    (r : Rect) (oh ow : ℚ) (p : ℚ)
    (hsel : cfg.scrollableSelector = true)
    (hp : p = max 0 cfg.viewportPadding) :
    ((computePlacement cfg vw vh r oh ow true).side = Side.top →
        (computePlacement cfg vw vh r oh ow true).inner =
          some ⟨min (r.top - 10) (vh * (9 / 10)), true⟩) ∧
      ((computePlacement cfg vw vh r oh ow true).side = Side.bottom →
        (computePlacement cfg vw vh r oh ow true).inner =
          some ⟨min ((vh - r.bottom) - 10) (vh * (9 / 10)), true⟩) ∧
      (((computePlacement cfg vw vh r oh ow true).side = Side.left ∨
          (computePlacement cfg vw vh r oh ow true).side = Side.right) →
        (computePlacement cfg vw vh r oh ow true).inner =
          some ⟨min ((vh - p * 2) - 10) (vh * (9 / 10)), true⟩) := by
  have hin := computePlacement_inner cfg vw vh r oh ow hsel
  refine ⟨?_, ?_, ?_⟩
  · intro hs
    rw [computePlacement_side] at hs
    have hot := rawPlacement_top_openOnTop cfg vh r oh ow hs
    rw [hin, hs, hot]
    rfl
  · intro hs
    rw [computePlacement_side] at hs
    have hot := rawPlacement_bottom_openOnTop cfg vh r oh ow hs
    rw [hin, hs, hot]
    rfl
  · intro hs
    rw [computePlacement_side] at hs
    rcases hs with hs | hs <;> rw [hin, hs, hp]

/-- Witness for C7 at the spec's worked example with a scrollable
selector: the side is top, so the inner element's maximum height is
`min (700 - 10) (768 * 0.9) = 690` and it is marked scrollable. -/
theorem claim7_witness :
    (computePlacement cfgScroll 1024 768 rectExample 300 200 true).inner =
      some ⟨min (rectExample.top - 10) ((768:ℚ) * (9 / 10)), true⟩ :=
  (claim7_scrollable_inner_sizing cfgScroll 1024 768 rectExample 300 200 4
      rfl (by decide)).1
    (by norm_num [computePlacement_side, rawPlacement, resolvedOpenOnTop,
      cfgScroll, rectExample])

/-- Claim C8: for every re-evaluation in which the anchor cannot be
resolved, the engine performs no computation and raises no error
(`updatePosition` is total and returns immediately): no position,
width, or inner max-height write occurs (no `Effects` are produced) and
no placement event is emitted (`lastPlacement` is unchanged), so the
panel retains its last applied position. -/
theorem claim8_unresolved_silent_noop (cfg : Config) (vw vh oh ow : ℚ)
    (innerF : Bool) (last : Option Side) :
    updatePosition cfg none vw vh oh ow innerF last = (last, none) := rfl

/-- Claim C9 counterexample: with no direct reference, a provided but
empty `referenceElementId` and a lookup that finds nothing, the
resolver returns the parent element (here `some 0`) instead of the
`null` the claim requires: JavaScript truthiness makes `id ? ... : ...`
treat the empty string like an absent id. -/
theorem claim9_counterexample :
    getReferenceElement (α := ℕ) none (some "") (fun _ => none) (some 0) =
        some 0 ∧
      getReferenceElement (α := ℕ) none (some "") (fun _ => none) (some 0) ≠
        none := by
  constructor <;> simp [getReferenceElement]

/-- Claim C9 (amended): reference resolution has a strict priority with
no cross-level fallback on lookup failure: if `referenceElement` is
provided it is always used; otherwise, if `referenceElementId` is
provided and non-empty, the resolver returns exactly the
`getElementById` result for that id — `null` when no such element
exists, with no fallback to the parent; the parent-element fallback is
used exactly when `referenceElement` is unset and `referenceElementId`
is null or the empty string (an empty-string id is falsy in JavaScript
and behaves as unset). -/
theorem claim9_amended_resolver_priority {α : Type} (d : Option α)
    (i : Option String) (g : String → Option α) (parent : Option α) :
    (∀ e, d = some e → getReferenceElement d i g parent = some e) ∧
      (d = none → ∀ s, i = some s → s ≠ "" →
        getReferenceElement d i g parent = g s) ∧
      (d = none → (i = none ∨ i = some "") →
        getReferenceElement d i g parent = parent) := by
  refine ⟨?_, ?_, ?_⟩
  · intro e he
    subst he
    rfl
  · intro hd s hi hs
    subst hd
    subst hi
    simp [getReferenceElement, hs]
  · intro hd hi
    subst hd
    rcases hi with hi | hi <;> subst hi <;> simp [getReferenceElement]

/-- Witness for the amended C9: a direct reference wins over an id and
a parent; an id looked up through a failing lookup yields `none`. -/
theorem claim9_witness :
    getReferenceElement (some (7:ℕ)) (some "anchor") (fun _ => none)
        (some 3) = some 7 ∧
      getReferenceElement (α := ℕ) none (some "anchor") (fun _ => none)
        (some 3) = none :=
  ⟨(claim9_amended_resolver_priority (some 7) (some "anchor")
      (fun _ => none) (some 3)).1 7 rfl,
    (claim9_amended_resolver_priority (α := ℕ) none (some "anchor")
      (fun _ => none) (some 3)).2.1 rfl "anchor" rfl (by decide)⟩

/-- Claim C10: the first successful placement computation always emits
the placement-changed event carrying the resolved side, because the
stored `lastPlacement` starts as `null`, which differs from every
possible side. -/
theorem claim10_first_pass_always_emits (cfg : Config) (vw vh : ℚ)
    (r : Rect) (oh ow : ℚ) (innerF : Bool) :
    updatePosition cfg (some r) vw vh oh ow innerF initialLastPlacement =
      (some (computePlacement cfg vw vh r oh ow innerF).side,
        some ⟨(if cfg.matchWidth then some r.width else none),
          (computePlacement cfg vw vh r oh ow innerF).top,
          (computePlacement cfg vw vh r oh ow innerF).left,
          some (computePlacement cfg vw vh r oh ow innerF).side,
          (computePlacement cfg vw vh r oh ow innerF).inner⟩) := by
  simp [updatePosition, emitStep, initialLastPlacement]

end NgAutoPosition
